import Mathlib

/-!
# nanonet-rs: the completion-port server core (`src/async_core.c`)

A shallow embedding of the C core.  The C globals, the process heap and the
part of the kernel the code talks to (open handles, submitted overlapped
operations) form one explicit `State`; every function of the source is a
state-passing function of the same name.  The outcome of each system call is
read from an `Env` record, so that a theorem quantified over `Env` covers every
combination of outcomes.  Every system call and every write to the `volatile`
flag is appended to `State.trace`, in program order.
-/

namespace NanoNet

/-! ## Constants of the source -/

/-- The source's `BUFFER_SIZE` (`#define BUFFER_SIZE 4096`). -/
def BUFFER_SIZE : Nat := 4096

/-- The source's `MAX_THREADS` (`#define MAX_THREADS 64`). -/
def MAX_THREADS : Nat := 64

/-- Winsock `SOCKET_ERROR`. -/
def SOCKET_ERROR : Int := -1

/-- Winsock `WSA_IO_PENDING` (`ERROR_IO_PENDING`). -/
def WSA_IO_PENDING : Int := 997

/-- Win32 `FALSE`. -/
def FALSE : Int := 0

/-- Size of `struct sockaddr_in`. -/
def SIZEOF_SOCKADDR_IN : Nat := 16

/-- Width of a `DWORD`. -/
def DWORD_MOD : Nat := 2 ^ 32

/-! ## Data model -/

/-- The `OperationType` enum. -/
inductive OperationType where
  | IO_ACCEPT
  | IO_READ
  | IO_WRITE
  deriving DecidableEq, Repr

/-- The inline `char buffer[BUFFER_SIZE]` of a `PER_IO_DATA`: always exactly
`BUFFER_SIZE` bytes. -/
abbrev Buffer := { l : List Nat // l.length = BUFFER_SIZE }

/-- A zeroed inline buffer (`HEAP_ZERO_MEMORY`). -/
def Buffer.zero : Buffer := ⟨List.replicate BUFFER_SIZE 0, by simp⟩

/-- Store `data` at the start of the buffer, in place; bytes past the end of
the array are not stored. -/
def Buffer.write (b : Buffer) (data : List Nat) : Buffer :=
  ⟨(data ++ b.val.drop data.length).take BUFFER_SIZE, by
    have h := b.property
    simp only [List.length_take, List.length_append, List.length_drop, h]
    omega⟩

/-- A `char*`: null, the inline buffer of the `PER_IO_DATA` at an address, or a
separately allocated heap block. -/
inductive BufPtr where
  | null
  | inline_buffer (io : Nat)
  | block (addr : Nat)
  deriving DecidableEq, Repr

/-- The struct `PER_IO_DATA` (the `WSAOVERLAPPED` header carries no data of the program and
is left out; `data_buf` is flattened into its two fields). -/
structure PER_IO_DATA where
  data_buf_buf : BufPtr
  data_buf_len : Nat
  buffer : Buffer
  operation_type : OperationType
  deriving DecidableEq

/-- The struct `PER_HANDLE_DATA`; `none` is `INVALID_SOCKET`. -/
structure PER_HANDLE_DATA where
  socket : Option Nat
  deriving DecidableEq, Repr

/-- What one block of the process heap holds. -/
inductive HeapObj where
  | handle (d : PER_HANDLE_DATA)
  | io (d : PER_IO_DATA)
  | bytes (b : List Nat)
  deriving DecidableEq

/-- One system call, callback invocation or volatile store, as it is made. -/
inductive Event where
  | WSAStartup
  | WSACleanup
  | CreateIoCompletionPort_new
  | CreateIoCompletionPort_assoc (sock : Option Nat) (port : Option Nat) (key : Option Nat)
  | WSASocket
  | WSAIoctl (sock : Option Nat)
  | bind (sock : Option Nat) (addr : String) (port : Nat)
  | listen (sock : Option Nat)
  | CreateThread (i : Nat)
  | PostQueuedCompletionStatus (port : Option Nat) (bytes : Nat) (key : Option Nat) (op : Option Nat)
  | WaitForMultipleObjects (n : Nat) (handles : List (Option Nat))
  | closesocket (sock : Option Nat)
  | CloseHandle (h : Nat)
  | AcceptEx (listenSock : Option Nat) (acceptSock : Option Nat) (op : Nat)
  | WSARecv (sock : Option Nat) (op : Nat)
  | WSASend (sock : Option Nat) (op : Nat) (payload : List Nat)
  | callback (fn : Nat) (conn : Option Nat) (data : BufPtr) (len : Nat)
  | store_shutdown_flag (v : Int)
  deriving DecidableEq, Repr

/-- An overlapped operation the kernel has accepted and not yet completed:
the `PER_IO_DATA` it was submitted with, the `PER_HANDLE_DATA` of the
connection it was submitted for, and which call submitted it. -/
structure InFlight where
  op : Nat
  conn : Nat
  kind : OperationType
  deriving DecidableEq, Repr

/-- The C globals, the process heap, and the kernel objects the program owns.
`g_worker_threads` lists the slots of the array that the last
`initialize_server` filled (the first `g_num_threads` ones). -/
structure State where
  g_completion_port : Option Nat
  g_listen_socket : Option Nat
  g_shutdown_flag : Int
  g_worker_threads : List (Option Nat)
  g_num_threads : Nat
  g_callback_func : Option Nat
  lpfnAcceptEx : Option Nat
  heap : List (Nat × HeapObj)
  next_addr : Nat
  wsa_refs : Nat
  open_sockets : List Nat
  open_ports : List Nat
  inflight : List InFlight
  trace : List Event
  deriving DecidableEq

/-- The state the static initialisers give: nothing initialised, nothing
allocated, nothing open. -/
def State.initial : State :=
  { g_completion_port := none
    g_listen_socket := none
    g_shutdown_flag := 0
    g_worker_threads := []
    g_num_threads := 0
    g_callback_func := none
    lpfnAcceptEx := none
    heap := []
    next_addr := 1
    wsa_refs := 0
    open_sockets := []
    open_ports := []
    inflight := []
    trace := [] }

/-- The result of submitting an overlapped operation: the call's return value
and what `WSAGetLastError` reports after it. -/
structure Submit where
  ret : Int
  last_error : Int
  deriving DecidableEq, Repr

/-- The outcomes of the calls the program makes into its environment. -/
structure Env where
  /-- return value of `WSAStartup` (0 is success) -/
  WSAStartup : Int
  /-- result of `CreateIoCompletionPort(INVALID_HANDLE_VALUE, ...)`: the new port, `none` is `NULL` -/
  CreateIoCompletionPort_new : Option Nat
  /-- result of `CreateIoCompletionPort(socket, port, key, 0)`: `none` is `NULL` -/
  CreateIoCompletionPort_assoc : Option Nat
  /-- result of `WSASocket`: the new socket, `none` is `INVALID_SOCKET` -/
  WSASocket : Option Nat
  /-- return value of `WSAIoctl` -/
  WSAIoctl : Int
  /-- the function pointer `WSAIoctl` stores when it succeeds -/
  AcceptEx_ptr : Nat
  /-- return value of `bind` -/
  bind : Int
  /-- return value of `listen` -/
  listen : Int
  /-- value of `sys_info.dwNumberOfProcessors` -/
  dwNumberOfProcessors : Nat
  /-- the handle `CreateThread` returns for the i-th worker, `none` is `NULL` -/
  CreateThread : Nat → Option Nat
  /-- outcome of `AcceptEx` (a `BOOL`) -/
  AcceptEx : Submit
  /-- outcome of `WSARecv` -/
  WSARecv : Submit
  /-- outcome of `WSASend` -/
  WSASend : Submit
  /-- whether `HeapAlloc` of a Write payload returns a block -/
  HeapAlloc_payload : Bool
  /-- the host callback at a function pointer: given the connection handle,
  the buffer contents and the length, its return value and the bytes it leaves
  at the start of the buffer -/
  host : Nat → Option Nat → List Nat → Nat → Int × List Nat

/-! ## Process heap -/

/-- The first block listed at an address. -/
def heapFind : List (Nat × HeapObj) → Nat → Option HeapObj
  | [], _ => none
  | (b, o) :: rest, a => if b = a then some o else heapFind rest a

/-- The block at an address, if one is allocated there. -/
def heapLookup (s : State) (a : Nat) : Option HeapObj :=
  heapFind s.heap a

/-- The address the next allocation gets: above every address handed out so
far and above every live block. -/
def freshAddr (s : State) : Nat :=
  s.heap.foldr (fun e m => max (e.1 + 1) m) s.next_addr

/-- The call `HeapAlloc`: a fresh block holding `o`, at an address that is not
in use; addresses are never reused. -/
def HeapAlloc (o : HeapObj) (s : State) : Nat × State :=
  (freshAddr s,
    { s with heap := s.heap ++ [(freshAddr s, o)], next_addr := freshAddr s + 1 })

/-- The call `HeapFree(GetProcessHeap(), 0, p)`; freeing `NULL` does nothing. -/
def HeapFree (p : Option Nat) (s : State) : State :=
  match p with
  | none => s
  | some a => { s with heap := s.heap.filter (fun e => decide (e.1 ≠ a)) }

/-- A store through a pointer to an allocated block. -/
def heapStore (a : Nat) (o : HeapObj) (s : State) : State :=
  { s with heap := s.heap.map (fun e => if e.1 = a then (a, o) else e) }

/-- Dereference a `LPPER_HANDLE_DATA`; `none` when the pointer is null or does
not point to a live `PER_HANDLE_DATA` (the C program faults). -/
def derefHandle (s : State) (p : Option Nat) : Option PER_HANDLE_DATA :=
  match p with
  | none => none
  | some a =>
    match heapLookup s a with
    | some (HeapObj.handle d) => some d
    | _ => none

/-- Dereference a `LPPER_IO_DATA`; `none` when the pointer is null or does not
point to a live `PER_IO_DATA`. -/
def derefIo (s : State) (p : Option Nat) : Option PER_IO_DATA :=
  match p with
  | none => none
  | some a =>
    match heapLookup s a with
    | some (HeapObj.io d) => some d
    | _ => none

/-- The first `n` bytes behind a `char*` (the source of a `memcpy`). -/
def readBytes (s : State) (p : BufPtr) (n : Nat) : Option (List Nat) :=
  match p with
  | BufPtr.null => none
  | BufPtr.inline_buffer io => (derefIo s (some io)).map (fun d => d.buffer.val.take n)
  | BufPtr.block a =>
    match heapLookup s a with
    | some (HeapObj.bytes b) => some (b.take n)
    | _ => none

/-- Append an event to the trace. -/
def emit (e : Event) (s : State) : State :=
  { s with trace := s.trace ++ [e] }

/-- The kernel side of `closesocket`: the handle is no longer open. -/
def closesocket (sock : Option Nat) (s : State) : State :=
  let s := emit (Event.closesocket sock) s
  match sock with
  | none => s
  | some h => { s with open_sockets := s.open_sockets.erase h }

/-- The call `WSASocket(AF_INET, SOCK_STREAM, 0, NULL, 0, WSA_FLAG_OVERLAPPED)`:
what it returns, and on success the new handle is open. -/
def WSASocket (env : Env) (s : State) : Option Nat × State :=
  let s := emit Event.WSASocket s
  (env.WSASocket,
    match env.WSASocket with
    | none => s
    | some h => { s with open_sockets := h :: s.open_sockets })

/-- The kernel side of a submission that did not fail: the operation is in
flight until its completion is dequeued. -/
def submit (e : InFlight) (s : State) : State :=
  { s with inflight := s.inflight ++ [e] }

/-- The call `WSACleanup`. -/
def WSACleanup (s : State) : State :=
  let s := emit Event.WSACleanup s
  { s with wsa_refs := s.wsa_refs - 1 }

/-! ## `cleanup` and `initialize_server` -/

/-- The function `void cleanup()`. -/
def cleanup (s : State) : State :=
  let s :=
    match s.g_listen_socket with
    | some l => { closesocket (some l) s with g_listen_socket := none }
    | none => s
  let s :=
    match s.g_completion_port with
    | some p =>
      { emit (Event.CloseHandle p) s with
        open_ports := s.open_ports.erase p, g_completion_port := none }
    | none => s
  WSACleanup s

/-- The thread-creation loop of `initialize_server`, from index `i` for `k`
more iterations. -/
def createWorkers (env : Env) : Nat → Nat → State → State
  | _, 0, s => s
  | i, k + 1, s =>
    createWorkers env (i + 1) k
      { emit (Event.CreateThread i) s with
        g_worker_threads := s.g_worker_threads ++ [env.CreateThread i] }

/-- The function `int initialize_server(const char* addr, unsigned short port,
NanoNetCallback callback_func)`; `callback_func = none` is a null pointer. -/
def initialize_server (env : Env) (addr : String) (port : Nat)
    (callback_func : Option Nat) (s : State) : Int × State :=
  match callback_func with
  | none => (1, s)
  | some f =>
    let s := { s with g_callback_func := some f }
    let s := emit Event.WSAStartup s
    if env.WSAStartup ≠ 0 then (2, s)
    else
      let s := { s with wsa_refs := s.wsa_refs + 1 }
      let s := emit Event.CreateIoCompletionPort_new s
      let s := { s with g_completion_port := env.CreateIoCompletionPort_new }
      match env.CreateIoCompletionPort_new with
      | none => (3, WSACleanup s)
      | some p =>
        let s := { s with open_ports := p :: s.open_ports }
        let r := WSASocket env s
        let s := { r.2 with g_listen_socket := r.1 }
        if r.1 = none then (4, cleanup s)
        else
          let s := emit (Event.WSAIoctl s.g_listen_socket) s
          let s :=
            if env.WSAIoctl = SOCKET_ERROR then s
            else { s with lpfnAcceptEx := some env.AcceptEx_ptr }
          if env.WSAIoctl = SOCKET_ERROR then (5, cleanup s)
          else
            let s := emit (Event.bind s.g_listen_socket addr (port % 2 ^ 16)) s
            if env.bind = SOCKET_ERROR then (6, cleanup s)
            else
              let s := emit (Event.listen s.g_listen_socket) s
              if env.listen = SOCKET_ERROR then (7, cleanup s)
              else
                let n := (env.dwNumberOfProcessors % DWORD_MOD * 2) % DWORD_MOD
                let n := if n > MAX_THREADS then MAX_THREADS else n
                let s := { s with g_num_threads := n, g_worker_threads := [] }
                (0, createWorkers env 0 n s)

/-! ## Posting overlapped operations -/

/-- Length of the address scratch area of an Accept:
`(sizeof(struct sockaddr_in) + 16) * 2`. -/
def ACCEPT_BUF_LEN : Nat := (SIZEOF_SOCKADDR_IN + 16) * 2

/-- A `PER_IO_DATA` as `HeapAlloc(..., HEAP_ZERO_MEMORY, ...)` returns it. -/
def PER_IO_DATA.zeroed : PER_IO_DATA :=
  { data_buf_buf := BufPtr.null
    data_buf_len := 0
    buffer := Buffer.zero
    operation_type := OperationType.IO_ACCEPT }

/-- Whether a submission failed for the program: the call returned `failure`
and the last error is not `WSA_IO_PENDING`. -/
def Submit.failed (r : Submit) (failure : Int) : Bool :=
  r.ret == failure && r.last_error != WSA_IO_PENDING

/-- The function `void post_accept()`; `none` when `lpfnAcceptEx` is a null function
pointer. -/
def post_accept (env : Env) (s : State) : Option State :=
  let a := HeapAlloc (HeapObj.handle { socket := some 0 }) s
  let per_handle_data := a.1
  let r := WSASocket env a.2
  let sock := r.1
  let s := heapStore per_handle_data (HeapObj.handle { socket := sock }) r.2
  let a := HeapAlloc (HeapObj.io PER_IO_DATA.zeroed) s
  let per_io_data := a.1
  let s := heapStore per_io_data
    (HeapObj.io { PER_IO_DATA.zeroed with operation_type := OperationType.IO_ACCEPT }) a.2
  let a := HeapAlloc (HeapObj.bytes (List.replicate ACCEPT_BUF_LEN 0)) s
  let buf := a.1
  let s := heapStore per_io_data
    (HeapObj.io { PER_IO_DATA.zeroed with
      operation_type := OperationType.IO_ACCEPT
      data_buf_buf := BufPtr.block buf
      data_buf_len := ACCEPT_BUF_LEN }) a.2
  match s.lpfnAcceptEx with
  | none => none
  | some _ =>
    let s := emit (Event.AcceptEx s.g_listen_socket sock per_io_data) s
    if env.AcceptEx.failed FALSE then
      let s := closesocket sock s
      let s := HeapFree (some per_handle_data) s
      let s := HeapFree (some buf) s
      some (HeapFree (some per_io_data) s)
    else
      some (submit
        { op := per_io_data, conn := per_handle_data, kind := OperationType.IO_ACCEPT } s)

/-- The function `void post_read(LPPER_HANDLE_DATA per_handle_data)`; `none` when
`per_handle_data` cannot be dereferenced. -/
def post_read (env : Env) (per_handle_data : Option Nat) (s : State) : Option State :=
  let a := HeapAlloc (HeapObj.io PER_IO_DATA.zeroed) s
  let per_io_data := a.1
  let s := heapStore per_io_data
    (HeapObj.io { PER_IO_DATA.zeroed with
      operation_type := OperationType.IO_READ
      data_buf_buf := BufPtr.inline_buffer per_io_data
      data_buf_len := BUFFER_SIZE }) a.2
  match per_handle_data, derefHandle s per_handle_data with
  | some conn, some h =>
    let s := emit (Event.WSARecv h.socket per_io_data) s
    if env.WSARecv.failed SOCKET_ERROR then
      let s := closesocket h.socket s
      let s := HeapFree (some conn) s
      some (HeapFree (some per_io_data) s)
    else
      some (submit { op := per_io_data, conn := conn, kind := OperationType.IO_READ } s)
  | _, _ => none

/-- The function `void post_write(LPPER_HANDLE_DATA per_handle_data, const char* data,
int data_len)`; `none` when `data` or `per_handle_data` cannot be
dereferenced. -/
def post_write (env : Env) (per_handle_data : Option Nat) (data : BufPtr) (data_len : Nat)
    (s : State) : Option State :=
  let a := HeapAlloc (HeapObj.io PER_IO_DATA.zeroed) s
  let per_io_data := a.1
  let s := heapStore per_io_data
    (HeapObj.io { PER_IO_DATA.zeroed with operation_type := OperationType.IO_WRITE }) a.2
  if env.HeapAlloc_payload then
    match readBytes s data data_len with
    | none => none
    | some src =>
      let a := HeapAlloc (HeapObj.bytes src) s
      let buf := a.1
      let s := heapStore per_io_data
        (HeapObj.io { PER_IO_DATA.zeroed with
          operation_type := OperationType.IO_WRITE
          data_buf_buf := BufPtr.block buf
          data_buf_len := data_len }) a.2
      match per_handle_data, derefHandle s per_handle_data with
      | some conn, some h =>
        let s := emit (Event.WSASend h.socket per_io_data src) s
        if env.WSASend.failed SOCKET_ERROR then
          let s := HeapFree (some buf) s
          some (HeapFree (some per_io_data) s)
        else
          some (submit { op := per_io_data, conn := conn, kind := OperationType.IO_WRITE } s)
      | _, _ => none
  else some s

/-! ## The dispatcher -/

/-- The call `g_callback_func(per_handle_data, per_io_data->buffer,
bytes_transferred)` when `g_callback_func` is not null: the host sees the
inline buffer and may store into it; its return value is dropped. -/
def invoke_callback (env : Env) (per_handle_data : Option Nat) (io_addr : Nat)
    (io : PER_IO_DATA) (bytes_transferred : Nat) (s : State) : State :=
  match s.g_callback_func with
  | none => s
  | some f =>
    let s := emit (Event.callback f per_handle_data (BufPtr.inline_buffer io_addr)
      bytes_transferred) s
    heapStore io_addr
      (HeapObj.io { io with
        buffer := io.buffer.write (env.host f per_handle_data io.buffer.val bytes_transferred).2 }) s

/-- The function `void process_io(LPPER_HANDLE_DATA per_handle_data, LPPER_IO_DATA
per_io_data, DWORD bytes_transferred)`; `none` when a null or dangling pointer
is dereferenced. -/
def process_io (env : Env) (per_handle_data : Option Nat) (per_io_data : Option Nat)
    (bytes_transferred : Nat) (s : State) : Option State :=
  match per_io_data, derefIo s per_io_data with
  | some io_addr, some io =>
    match io.operation_type with
    | OperationType.IO_ACCEPT =>
      match per_handle_data, derefHandle s per_handle_data with
      | some conn, some h =>
        let client_socket := h.socket
        match post_accept env s with
        | none => none
        | some s =>
          let s := heapStore conn (HeapObj.handle { socket := client_socket }) s
          let s := emit (Event.CreateIoCompletionPort_assoc client_socket s.g_completion_port
            (some conn)) s
          match env.CreateIoCompletionPort_assoc with
          | none =>
            let s := closesocket client_socket s
            some (HeapFree (some conn) s)
          | some _ => post_read env (some conn) s
      | _, _ => none
    | OperationType.IO_READ =>
      if bytes_transferred = 0 then
        match derefHandle s per_handle_data with
        | none => none
        | some h =>
          let s := closesocket h.socket s
          let s := HeapFree per_handle_data s
          some (HeapFree (some io_addr) s)
      else
        let s := invoke_callback env per_handle_data io_addr io bytes_transferred s
        post_write env per_handle_data (BufPtr.inline_buffer io_addr) bytes_transferred s
    | OperationType.IO_WRITE =>
      let s := HeapFree (some io_addr) s
      post_read env per_handle_data s
  | _, _ => none

/-! ## Lifecycle and workers -/

/-- The function `void start_server()`. -/
def start_server (env : Env) (s : State) : Option State :=
  post_accept env s

/-- The loop of `shutdown_server` posting one completion per worker, for `k`
more iterations. -/
def postSentinels : Nat → State → State
  | 0, s => s
  | k + 1, s =>
    postSentinels k (emit (Event.PostQueuedCompletionStatus s.g_completion_port 0 none none) s)

/-- The function `void shutdown_server()`. -/
def shutdown_server (s : State) : State :=
  let s := emit (Event.store_shutdown_flag 1) { s with g_shutdown_flag := 1 }
  let s := postSentinels s.g_num_threads s
  let s := emit (Event.WaitForMultipleObjects s.g_num_threads s.g_worker_threads) s
  cleanup s

/-- What `GetQueuedCompletionStatus` hands back: its return value and the three
out-parameters. -/
structure Dequeue where
  ret : Int
  bytes_transferred : Nat
  per_handle_data : Option Nat
  per_io_data : Option Nat
  deriving DecidableEq, Repr

/-- What one iteration of the worker loop does after the dequeue. -/
inductive WorkerAction where
  | leave
  | dispatch (per_handle_data : Option Nat) (per_io_data : Option Nat) (bytes_transferred : Nat)
  deriving DecidableEq, Repr

/-- The body of the `while` loop of `WorkerThread` after
`GetQueuedCompletionStatus` has returned `d`: `break`, or the call of
`process_io` it goes on to make. -/
def WorkerThread_body (d : Dequeue) : WorkerAction :=
  if d.ret = 0 then
    if d.per_io_data = none then WorkerAction.leave
    else WorkerAction.dispatch d.per_handle_data d.per_io_data d.bytes_transferred
  else WorkerAction.dispatch d.per_handle_data d.per_io_data d.bytes_transferred

/-- The function `DWORD WINAPI WorkerThread(LPVOID lpParam)` run over the completions it
dequeues, each with the outcomes of the calls its dispatch makes; it stops at the
end of the list (blocked in the kernel).  `none` when a dispatch faults. -/
def WorkerThread : List (Env × Dequeue) → State → Option State
  | [], s => some s
  | (env, d) :: rest, s =>
    if s.g_shutdown_flag = 0 then
      match WorkerThread_body d with
      | WorkerAction.leave => some s
      | WorkerAction.dispatch k o n =>
        match process_io env k o n s with
        | none => none
        | some s => WorkerThread rest s
    else some s

/-! ## Completions delivered by the kernel -/

/-- The kernel completing an operation it has in flight, before a worker
dispatches it: the operation leaves the in-flight set, and a completed Read has
stored the received bytes in the inline buffer it was submitted with. -/
def complete (e : InFlight) (data : List Nat) (s : State) : State :=
  let s := { s with inflight := s.inflight.erase e }
  match e.kind, derefIo s (some e.op) with
  | OperationType.IO_READ, some io =>
    heapStore e.op (HeapObj.io { io with buffer := io.buffer.write data }) s
  | _, _ => s

/-- The engine states that dispatching reaches: from any state with nothing in
flight, by `start_server` and by the dispatch (`process_io`) of the completion of
any operation in flight, with any byte count, any received bytes and any outcome
of the calls the dispatch makes. -/
inductive Reachable : State → Prop where
  | idle (s : State) (h : s.inflight = []) : Reachable s
  | start (env : Env) (s s' : State) (hr : Reachable s)
      (h : start_server env s = some s') : Reachable s'
  | dispatch (env : Env) (s s' : State) (e : InFlight) (data : List Nat) (n : Nat)
      (hr : Reachable s) (he : e ∈ s.inflight)
      (h : process_io env (some e.conn) (some e.op) n (complete e data s) = some s') :
      Reachable s'

/-- Number of Reads and Writes in flight for the connection record at `conn`. -/
def inFlightRW (s : State) (conn : Nat) : Nat :=
  (s.inflight.filter
    (fun e => decide (e.conn = conn ∧ e.kind ≠ OperationType.IO_ACCEPT))).length

/-! ## A concrete run -/

/-- Outcomes under which every call succeeds and every submission is pending;
the host callback leaves the buffer as it is. -/
def envAllOk : Env :=
  { WSAStartup := 0
    CreateIoCompletionPort_new := some 100
    CreateIoCompletionPort_assoc := some 100
    WSASocket := some 200
    WSAIoctl := 0
    AcceptEx_ptr := 7
    bind := 0
    listen := 0
    dwNumberOfProcessors := 2
    CreateThread := fun i => some (300 + i)
    AcceptEx := { ret := 0, last_error := 997 }
    WSARecv := { ret := -1, last_error := 997 }
    WSASend := { ret := -1, last_error := 997 }
    HeapAlloc_payload := true
    host := fun _ _ _ _ => (0, []) }

/-- The engine after `initialize_server("0.0.0.0", 8080, callback)` succeeded on
a two-processor machine; the listening socket is handle 200, the completion port
handle 100. -/
def runInit : State :=
  (initialize_server envAllOk "0.0.0.0" 8080 (some 1) State.initial).2

/-- The run after `start_server`: the first Accept is in flight, for the
connection record at address 1 (socket 201) with the operation record at 2. -/
def runStarted : State :=
  (start_server { envAllOk with WSASocket := some 201 } runInit).getD runInit

/-- The run after the first Accept completed and was dispatched: the next Accept is in
flight (records 4 and 5) and the first Read on connection 1 (record 7). -/
def runAccepted : State :=
  (process_io { envAllOk with WSASocket := some 202 } (some 1) (some 2) 0
    (complete { op := 2, conn := 1, kind := OperationType.IO_ACCEPT } [] runStarted)).getD
    runStarted

/-- The run at the moment the Read on connection 1 has completed with the two
bytes `hi`, before it is dispatched. -/
def runReadDone : State :=
  complete { op := 7, conn := 1, kind := OperationType.IO_READ } [104, 105] runAccepted

/-- The run after that Read was dispatched: the echo Write is in flight (record 8,
payload block 9). -/
def runEchoed : State :=
  (process_io envAllOk (some 1) (some 7) 2 runReadDone).getD runReadDone

/-- The run after the echo Write completed and was dispatched. -/
def runWritten : State :=
  (process_io envAllOk (some 1) (some 8) 2
    (complete { op := 8, conn := 1, kind := OperationType.IO_WRITE } [] runEchoed)).getD
    runEchoed

/-- The Read record of connection 1 in `runReadDone`: the inline buffer holds the
two received bytes. -/
def runReadRecord : PER_IO_DATA :=
  { data_buf_buf := BufPtr.inline_buffer 7
    data_buf_len := BUFFER_SIZE
    buffer := Buffer.zero.write [104, 105]
    operation_type := OperationType.IO_READ }

/-- The run at the moment the Read on connection 1 has completed with no bytes
(the peer closed), before it is dispatched. -/
def runPeerClosed : State :=
  complete { op := 7, conn := 1, kind := OperationType.IO_READ } [] runAccepted

/-- The Read record of connection 1 in `runPeerClosed`. -/
def runClosedRecord : PER_IO_DATA :=
  { data_buf_buf := BufPtr.inline_buffer 7
    data_buf_len := BUFFER_SIZE
    buffer := Buffer.zero.write []
    operation_type := OperationType.IO_READ }

/-- The invariant carried along every run: no two operations in flight belong to
the same connection record, and every connection record with an operation in
flight was allocated before the allocator's current mark. -/
def InFlightInv (s : State) : Prop :=
  (s.inflight.map InFlight.conn).Nodup ∧ ∀ e ∈ s.inflight, e.conn < s.next_addr

/-! ## Laws of the model -/

@[simp] theorem emit_fields (e : Event) (s : State) :
    (emit e s).g_completion_port = s.g_completion_port ∧
    (emit e s).g_listen_socket = s.g_listen_socket ∧
    (emit e s).g_shutdown_flag = s.g_shutdown_flag ∧
    (emit e s).g_num_threads = s.g_num_threads ∧
    (emit e s).g_callback_func = s.g_callback_func ∧
    (emit e s).lpfnAcceptEx = s.lpfnAcceptEx ∧
    (emit e s).heap = s.heap ∧
    (emit e s).next_addr = s.next_addr ∧
    (emit e s).open_sockets = s.open_sockets ∧
    (emit e s).inflight = s.inflight ∧
    (emit e s).trace = s.trace ++ [e] :=
  ⟨rfl, rfl, rfl, rfl, rfl, rfl, rfl, rfl, rfl, rfl, rfl⟩

@[simp] theorem heapStore_fields (a : Nat) (o : HeapObj) (s : State) :
    (heapStore a o s).g_completion_port = s.g_completion_port ∧
    (heapStore a o s).g_listen_socket = s.g_listen_socket ∧
    (heapStore a o s).g_shutdown_flag = s.g_shutdown_flag ∧
    (heapStore a o s).g_num_threads = s.g_num_threads ∧
    (heapStore a o s).g_callback_func = s.g_callback_func ∧
    (heapStore a o s).lpfnAcceptEx = s.lpfnAcceptEx ∧
    (heapStore a o s).next_addr = s.next_addr ∧
    (heapStore a o s).open_sockets = s.open_sockets ∧
    (heapStore a o s).inflight = s.inflight ∧
    (heapStore a o s).trace = s.trace :=
  ⟨rfl, rfl, rfl, rfl, rfl, rfl, rfl, rfl, rfl, rfl⟩

@[simp] theorem HeapFree_fields (p : Option Nat) (s : State) :
    (HeapFree p s).g_completion_port = s.g_completion_port ∧
    (HeapFree p s).g_listen_socket = s.g_listen_socket ∧
    (HeapFree p s).g_shutdown_flag = s.g_shutdown_flag ∧
    (HeapFree p s).g_num_threads = s.g_num_threads ∧
    (HeapFree p s).g_callback_func = s.g_callback_func ∧
    (HeapFree p s).lpfnAcceptEx = s.lpfnAcceptEx ∧
    (HeapFree p s).next_addr = s.next_addr ∧
    (HeapFree p s).open_sockets = s.open_sockets ∧
    (HeapFree p s).inflight = s.inflight ∧
    (HeapFree p s).trace = s.trace := by
  cases p <;> exact ⟨rfl, rfl, rfl, rfl, rfl, rfl, rfl, rfl, rfl, rfl⟩

@[simp] theorem closesocket_fields (k : Option Nat) (s : State) :
    (closesocket k s).g_completion_port = s.g_completion_port ∧
    (closesocket k s).g_listen_socket = s.g_listen_socket ∧
    (closesocket k s).g_shutdown_flag = s.g_shutdown_flag ∧
    (closesocket k s).g_num_threads = s.g_num_threads ∧
    (closesocket k s).g_callback_func = s.g_callback_func ∧
    (closesocket k s).lpfnAcceptEx = s.lpfnAcceptEx ∧
    (closesocket k s).heap = s.heap ∧
    (closesocket k s).next_addr = s.next_addr ∧
    (closesocket k s).inflight = s.inflight ∧
    (closesocket k s).trace = s.trace ++ [Event.closesocket k] := by
  cases k <;> exact ⟨rfl, rfl, rfl, rfl, rfl, rfl, rfl, rfl, rfl, rfl⟩

@[simp] theorem WSASocket_fields (env : Env) (s : State) :
    (WSASocket env s).1 = env.WSASocket ∧
    (WSASocket env s).2.g_completion_port = s.g_completion_port ∧
    (WSASocket env s).2.g_listen_socket = s.g_listen_socket ∧
    (WSASocket env s).2.g_shutdown_flag = s.g_shutdown_flag ∧
    (WSASocket env s).2.g_num_threads = s.g_num_threads ∧
    (WSASocket env s).2.g_callback_func = s.g_callback_func ∧
    (WSASocket env s).2.lpfnAcceptEx = s.lpfnAcceptEx ∧
    (WSASocket env s).2.heap = s.heap ∧
    (WSASocket env s).2.next_addr = s.next_addr ∧
    (WSASocket env s).2.inflight = s.inflight ∧
    (WSASocket env s).2.trace = s.trace ++ [Event.WSASocket] := by
  unfold WSASocket
  cases env.WSASocket <;> exact ⟨rfl, rfl, rfl, rfl, rfl, rfl, rfl, rfl, rfl, rfl, rfl⟩

@[simp] theorem HeapAlloc_fields (o : HeapObj) (s : State) :
    (HeapAlloc o s).1 = freshAddr s ∧
    (HeapAlloc o s).2.g_completion_port = s.g_completion_port ∧
    (HeapAlloc o s).2.g_listen_socket = s.g_listen_socket ∧
    (HeapAlloc o s).2.g_shutdown_flag = s.g_shutdown_flag ∧
    (HeapAlloc o s).2.g_num_threads = s.g_num_threads ∧
    (HeapAlloc o s).2.g_callback_func = s.g_callback_func ∧
    (HeapAlloc o s).2.lpfnAcceptEx = s.lpfnAcceptEx ∧
    (HeapAlloc o s).2.heap = s.heap ++ [(freshAddr s, o)] ∧
    (HeapAlloc o s).2.next_addr = freshAddr s + 1 ∧
    (HeapAlloc o s).2.open_sockets = s.open_sockets ∧
    (HeapAlloc o s).2.inflight = s.inflight ∧
    (HeapAlloc o s).2.trace = s.trace :=
  ⟨rfl, rfl, rfl, rfl, rfl, rfl, rfl, rfl, rfl, rfl, rfl, rfl⟩

@[simp] theorem submit_fields (e : InFlight) (s : State) :
    (submit e s).g_completion_port = s.g_completion_port ∧
    (submit e s).g_listen_socket = s.g_listen_socket ∧
    (submit e s).g_shutdown_flag = s.g_shutdown_flag ∧
    (submit e s).g_num_threads = s.g_num_threads ∧
    (submit e s).g_callback_func = s.g_callback_func ∧
    (submit e s).lpfnAcceptEx = s.lpfnAcceptEx ∧
    (submit e s).heap = s.heap ∧
    (submit e s).next_addr = s.next_addr ∧
    (submit e s).open_sockets = s.open_sockets ∧
    (submit e s).inflight = s.inflight ++ [e] ∧
    (submit e s).trace = s.trace :=
  ⟨rfl, rfl, rfl, rfl, rfl, rfl, rfl, rfl, rfl, rfl, rfl⟩

/-- The allocator never goes below the addresses already handed out. -/
theorem le_freshAddr (s : State) : s.next_addr ≤ freshAddr s := by
  unfold freshAddr
  induction s.heap with
  | nil => simp
  | cons e t ih => simp only [List.foldr_cons]; omega

/-- Every live block lies below the next address the allocator hands out. -/
theorem heapFind_lt_fresh (h : List (Nat × HeapObj)) (n a : Nat) (o : HeapObj)
    (hf : heapFind h a = some o) : a < h.foldr (fun e m => max (e.1 + 1) m) n := by
  induction h with
  | nil => simp [heapFind] at hf
  | cons e t ih =>
    obtain ⟨b, x⟩ := e
    simp only [heapFind] at hf
    simp only [List.foldr_cons]
    by_cases hb : b = a
    · subst hb; omega
    · simp only [hb, if_false] at hf
      have := ih hf
      omega

theorem heapLookup_lt_fresh (s : State) (a : Nat) (o : HeapObj)
    (hf : heapLookup s a = some o) : a < freshAddr s :=
  heapFind_lt_fresh s.heap s.next_addr a o hf

theorem heapFind_append (h : List (Nat × HeapObj)) (b a : Nat) (o : HeapObj) :
    heapFind (h ++ [(b, o)]) a =
      match heapFind h a with
      | some x => some x
      | none => if b = a then some o else none := by
  induction h with
  | nil => simp [heapFind]
  | cons e t ih =>
    obtain ⟨c, x⟩ := e
    by_cases hc : c = a
    · simp [heapFind, hc]
    · simp [heapFind, hc, ih]

theorem heapFind_store (h : List (Nat × HeapObj)) (b a : Nat) (o : HeapObj) :
    heapFind (h.map (fun e => if e.1 = b then (b, o) else e)) a =
      if a = b then (heapFind h a).map (fun _ => o) else heapFind h a := by
  induction h with
  | nil => simp [heapFind]
  | cons e t ih =>
    obtain ⟨c, x⟩ := e
    rw [List.map_cons]
    by_cases hc : c = b
    · rw [show (if (c, x).1 = b then (b, o) else (c, x)) = (b, o) from if_pos hc]
      subst hc
      by_cases ha : c = a
      · subst ha; simp [heapFind]
      · have ha' : ¬ a = c := fun h => ha h.symm
        simp only [heapFind, ha, ha', if_false, ih]
    · rw [show (if (c, x).1 = b then (b, o) else (c, x)) = (c, x) from if_neg hc]
      by_cases ha : c = a
      · subst ha; simp [heapFind, hc]
      · simp only [heapFind, ha, if_false, ih]

theorem heapFind_free (h : List (Nat × HeapObj)) (b a : Nat) :
    heapFind (h.filter (fun e => decide (e.1 ≠ b))) a =
      if a = b then none else heapFind h a := by
  induction h with
  | nil => simp [heapFind]
  | cons e t ih =>
    obtain ⟨c, x⟩ := e
    by_cases hc : c = b
    · rw [List.filter_cons_of_neg (by simp [hc]), ih]
      subst hc
      by_cases ha : a = c
      · simp [ha]
      · have ha' : ¬ c = a := fun h => ha h.symm
        simp only [heapFind, ha, ha', if_false]
    · rw [List.filter_cons_of_pos (by simp [hc])]
      by_cases ha : c = a
      · subst ha; simp [heapFind, hc]
      · simp only [heapFind, ha, if_false, ih]

@[simp] theorem heapLookup_emit (e : Event) (s : State) (a : Nat) :
    heapLookup (emit e s) a = heapLookup s a := rfl

@[simp] theorem heapLookup_submit (e : InFlight) (s : State) (a : Nat) :
    heapLookup (submit e s) a = heapLookup s a := rfl

@[simp] theorem heapLookup_closesocket (k : Option Nat) (s : State) (a : Nat) :
    heapLookup (closesocket k s) a = heapLookup s a := by
  cases k <;> rfl

@[simp] theorem heapLookup_WSASocket (env : Env) (s : State) (a : Nat) :
    heapLookup (WSASocket env s).2 a = heapLookup s a := by
  unfold WSASocket
  cases env.WSASocket <;> rfl

theorem heapLookup_store (b : Nat) (o : HeapObj) (s : State) (a : Nat) :
    heapLookup (heapStore b o s) a =
      if a = b then (heapLookup s a).map (fun _ => o) else heapLookup s a :=
  heapFind_store s.heap b a o

theorem heapLookup_free (b : Nat) (s : State) (a : Nat) :
    heapLookup (HeapFree (some b) s) a = if a = b then none else heapLookup s a :=
  heapFind_free s.heap b a

/-- A block that was live before an allocation is unchanged by it. -/
theorem heapLookup_alloc_old (o x : HeapObj) (s : State) (a : Nat)
    (h : heapLookup s a = some x) : heapLookup (HeapAlloc o s).2 a = some x := by
  unfold heapLookup at h ⊢
  simp [heapFind_append, h]

theorem freshAddr_eq_max (h : List (Nat × HeapObj)) (n : Nat) :
    h.foldr (fun e m => max (e.1 + 1) m) n = max n (h.foldr (fun e m => max (e.1 + 1) m) 0) := by
  induction h with
  | nil => simp
  | cons e t ih => simp only [List.foldr_cons]; omega

theorem fresh_append (h : List (Nat × HeapObj)) (n F : Nat) (o : HeapObj)
    (hF : h.foldr (fun e m => max (e.1 + 1) m) n = F) :
    (h ++ [(F, o)]).foldr (fun e m => max (e.1 + 1) m) (F + 1) = F + 1 := by
  have h1 := freshAddr_eq_max h n
  have h2 := freshAddr_eq_max h (max (F + 1) (F + 1))
  simp only [List.foldr_append, List.foldr_cons, List.foldr_nil]
  rw [hF] at h1
  omega

@[simp] theorem freshAddr_alloc (o : HeapObj) (s : State) :
    freshAddr (HeapAlloc o s).2 = freshAddr s + 1 :=
  fresh_append s.heap s.next_addr (freshAddr s) o rfl

@[simp] theorem freshAddr_store (a : Nat) (o : HeapObj) (s : State) :
    freshAddr (heapStore a o s) = freshAddr s := by
  unfold freshAddr heapStore
  simp only
  induction s.heap with
  | nil => rfl
  | cons e t ih =>
    simp only [List.map_cons, List.foldr_cons, ih]
    by_cases he : e.1 = a
    · simp [he]
    · simp [he]

@[simp] theorem freshAddr_emit (e : Event) (s : State) : freshAddr (emit e s) = freshAddr s := rfl

@[simp] theorem freshAddr_WSASocket (env : Env) (s : State) :
    freshAddr (WSASocket env s).2 = freshAddr s := by
  unfold WSASocket
  cases env.WSASocket <;> rfl

/-- What `post_accept` may change. -/
theorem post_accept_effect (env : Env) (s s' : State) (h : post_accept env s = some s') :
    s'.g_shutdown_flag = s.g_shutdown_flag ∧
    s'.g_callback_func = s.g_callback_func ∧
    s'.lpfnAcceptEx = s.lpfnAcceptEx ∧
    s'.g_completion_port = s.g_completion_port ∧
    s'.g_listen_socket = s.g_listen_socket ∧
    s'.g_num_threads = s.g_num_threads ∧
    s.next_addr < s'.next_addr ∧
    (s'.inflight = s.inflight ∨
      ∃ o c, s.next_addr ≤ c ∧ c < s'.next_addr ∧
        s'.inflight = s.inflight ++ [{ op := o, conn := c, kind := OperationType.IO_ACCEPT }]) := by
  have hf := le_freshAddr s
  unfold post_accept at h
  simp only [] at h
  split at h
  · contradiction
  · split at h
    · injection h with h
      subst h
      simp
      omega
    · injection h with h
      subst h
      simp
      exact ⟨by omega, _, _, hf, by omega, rfl, rfl⟩

/-- What `post_read` may change. -/
theorem post_read_effect (env : Env) (p : Option Nat) (s s' : State)
    (h : post_read env p s = some s') :
    s'.g_shutdown_flag = s.g_shutdown_flag ∧
    s'.g_callback_func = s.g_callback_func ∧
    s'.lpfnAcceptEx = s.lpfnAcceptEx ∧
    s'.g_completion_port = s.g_completion_port ∧
    s'.g_listen_socket = s.g_listen_socket ∧
    s'.g_num_threads = s.g_num_threads ∧
    s.next_addr < s'.next_addr ∧
    (s'.inflight = s.inflight ∨
      ∃ o c, p = some c ∧
        s'.inflight = s.inflight ++ [{ op := o, conn := c, kind := OperationType.IO_READ }]) := by
  have hf := le_freshAddr s
  unfold post_read at h
  simp only [] at h
  split at h
  · split at h
    · injection h with h
      subst h
      simp
      omega
    · injection h with h
      subst h
      simp
      omega
  · contradiction

/-- What `post_write` may change. -/
theorem post_write_effect (env : Env) (p : Option Nat) (data : BufPtr) (n : Nat) (s s' : State)
    (h : post_write env p data n s = some s') :
    s'.g_shutdown_flag = s.g_shutdown_flag ∧
    s'.g_callback_func = s.g_callback_func ∧
    s'.lpfnAcceptEx = s.lpfnAcceptEx ∧
    s'.g_completion_port = s.g_completion_port ∧
    s'.g_listen_socket = s.g_listen_socket ∧
    s'.g_num_threads = s.g_num_threads ∧
    s.next_addr < s'.next_addr ∧
    (s'.inflight = s.inflight ∨
      ∃ o c, p = some c ∧
        s'.inflight = s.inflight ++ [{ op := o, conn := c, kind := OperationType.IO_WRITE }]) := by
  have hf := le_freshAddr s
  unfold post_write at h
  simp only [] at h
  split at h
  · split at h
    · contradiction
    · split at h
      · split at h
        · injection h with h
          subst h
          simp
          omega
        · injection h with h
          subst h
          simp
          omega
      · contradiction
  · injection h with h
    subst h
    simp
    omega

@[simp] theorem invoke_callback_fields (env : Env) (p : Option Nat) (a : Nat) (io : PER_IO_DATA)
    (n : Nat) (s : State) :
    (invoke_callback env p a io n s).g_completion_port = s.g_completion_port ∧
    (invoke_callback env p a io n s).g_listen_socket = s.g_listen_socket ∧
    (invoke_callback env p a io n s).g_shutdown_flag = s.g_shutdown_flag ∧
    (invoke_callback env p a io n s).g_num_threads = s.g_num_threads ∧
    (invoke_callback env p a io n s).g_callback_func = s.g_callback_func ∧
    (invoke_callback env p a io n s).lpfnAcceptEx = s.lpfnAcceptEx ∧
    (invoke_callback env p a io n s).next_addr = s.next_addr ∧
    (invoke_callback env p a io n s).inflight = s.inflight := by
  unfold invoke_callback
  split <;> simp

/-- What one dispatch may change: the globals stay, addresses only grow, and the
in-flight set gains at most one Accept, for a connection record allocated during
the dispatch, and at most one Read or Write, for the connection dispatched. -/
theorem process_io_effect (env : Env) (p q : Option Nat) (n : Nat) (s s' : State)
    (h : process_io env p q n s = some s') :
    s'.g_shutdown_flag = s.g_shutdown_flag ∧
    s'.g_callback_func = s.g_callback_func ∧
    s'.lpfnAcceptEx = s.lpfnAcceptEx ∧
    s'.g_completion_port = s.g_completion_port ∧
    s'.g_listen_socket = s.g_listen_socket ∧
    s'.g_num_threads = s.g_num_threads ∧
    s.next_addr ≤ s'.next_addr ∧
    ∃ acc rw : List InFlight, s'.inflight = s.inflight ++ acc ++ rw ∧
      acc.length ≤ 1 ∧ rw.length ≤ 1 ∧
      (∀ e ∈ acc, s.next_addr ≤ e.conn ∧ e.conn < s'.next_addr) ∧
      (∀ e ∈ rw, some e.conn = p ∧ e.kind ≠ OperationType.IO_ACCEPT) := by
  unfold process_io at h
  split at h
  · rename_i io_addr io hq hio
    split at h
    · -- Accept
      split at h
      · rename_i conn hd hp hconn
        split at h
        · contradiction
        · rename_i s1 h1
          obtain ⟨a1, a2, a3, a4, a5, a6, a7, a8⟩ := post_accept_effect env s s1 h1
          have hacc : ∃ acc : List InFlight, s1.inflight = s.inflight ++ acc ∧ acc.length ≤ 1 ∧
              ∀ e ∈ acc, s.next_addr ≤ e.conn ∧ e.conn < s1.next_addr := by
            rcases a8 with a8 | ⟨o, c, hc1, hc2, a8⟩
            · exact ⟨[], by simp [a8], by simp, by simp⟩
            · exact ⟨[_], a8, by simp, by simp [hc1, hc2]⟩
          obtain ⟨acc, hacc1, hacc2, hacc3⟩ := hacc
          simp only [] at h
          split at h
          · injection h with h
            subst h
            simp only [HeapFree_fields, closesocket_fields, emit_fields, heapStore_fields]
            refine ⟨a1, a2, a3, a4, a5, a6, by omega, acc, [], by simp [hacc1], hacc2, by simp,
              hacc3, by simp⟩
          · obtain ⟨b1, b2, b3, b4, b5, b6, b7, b8⟩ := post_read_effect env _ _ s' h
            simp only [emit_fields, heapStore_fields] at b1 b2 b3 b4 b5 b6 b7 b8
            refine ⟨b1.trans a1, b2.trans a2, b3.trans a3, b4.trans a4, b5.trans a5,
              b6.trans a6, by omega, ?_⟩
            have hacc3' : ∀ e ∈ acc, s.next_addr ≤ e.conn ∧ e.conn < s'.next_addr := by
              intro e he
              have := hacc3 e he
              omega
            rcases b8 with b8 | ⟨o, c, hc, b8⟩
            · exact ⟨acc, [], by simp [b8, hacc1], hacc2, by simp, hacc3', by simp⟩
            · exact ⟨acc, [{ op := o, conn := c, kind := OperationType.IO_READ }],
                by simp [b8, hacc1], hacc2, by simp, hacc3', by simp [hc]⟩
      · contradiction
    · -- Read
      split at h
      · split at h
        · contradiction
        · injection h with h
          subst h
          simp only [HeapFree_fields, closesocket_fields, true_and, Nat.le_refl]
          exact ⟨[], [], by simp, by simp, by simp, by simp, by simp⟩
      · obtain ⟨b1, b2, b3, b4, b5, b6, b7, b8⟩ := post_write_effect env _ _ _ _ s' h
        simp only [invoke_callback_fields] at b1 b2 b3 b4 b5 b6 b7 b8
        refine ⟨b1, b2, b3, b4, b5, b6, by omega, ?_⟩
        rcases b8 with b8 | ⟨o, c, hc, b8⟩
        · exact ⟨[], [], by simp [b8], by simp, by simp, by simp, by simp⟩
        · exact ⟨[], [{ op := o, conn := c, kind := OperationType.IO_WRITE }], by simp [b8],
            by simp, by simp, by simp, by simp [hc]⟩
    · -- Write
      obtain ⟨b1, b2, b3, b4, b5, b6, b7, b8⟩ := post_read_effect env _ _ s' h
      simp only [HeapFree_fields] at b1 b2 b3 b4 b5 b6 b7 b8
      refine ⟨b1, b2, b3, b4, b5, b6, by omega, ?_⟩
      rcases b8 with b8 | ⟨o, c, hc, b8⟩
      · exact ⟨[], [], by simp [b8], by simp, by simp, by simp, by simp⟩
      · exact ⟨[], [{ op := o, conn := c, kind := OperationType.IO_READ }], by simp [b8],
          by simp, by simp, by simp, by simp [hc]⟩
  · contradiction

/-! ## The single-outstanding-I/O invariant -/

theorem complete_fields (e : InFlight) (data : List Nat) (s : State) :
    (complete e data s).inflight = s.inflight.erase e ∧
    (complete e data s).next_addr = s.next_addr ∧
    (complete e data s).g_shutdown_flag = s.g_shutdown_flag := by
  unfold complete
  simp only []
  split <;> simp

theorem conn_not_mem_erase (l : List InFlight) (e : InFlight)
    (hnd : (l.map InFlight.conn).Nodup) (he : e ∈ l) :
    e.conn ∉ (l.erase e).map InFlight.conn := by
  induction l with
  | nil => simp at he
  | cons x t ih =>
    rw [List.map_cons, List.nodup_cons] at hnd
    by_cases hx : x = e
    · subst hx
      simpa using hnd.1
    · have het : e ∈ t := by
        rcases List.mem_cons.mp he with h | h
        · exact absurd h.symm hx
        · exact h
      rw [List.erase_cons_tail (by simpa using hx), List.map_cons, List.mem_cons]
      rintro (h | h)
      · exact hnd.1 (h ▸ List.mem_map_of_mem InFlight.conn het)
      · exact ih hnd.2 het h

theorem inv_extend (old acc rw : List InFlight) (lo hi c : Nat)
    (hnd : (old.map InFlight.conn).Nodup) (hold : ∀ e ∈ old, e.conn < lo)
    (hlohi : lo ≤ hi) (hacc : acc.length ≤ 1) (hrw : rw.length ≤ 1)
    (haccb : ∀ e ∈ acc, lo ≤ e.conn ∧ e.conn < hi)
    (hrwc : ∀ e ∈ rw, e.conn = c ∧ c ∉ old.map InFlight.conn ∧ c < lo) :
    ((old ++ acc ++ rw).map InFlight.conn).Nodup ∧ ∀ e ∈ old ++ acc ++ rw, e.conn < hi := by
  constructor
  · rw [List.map_append, List.map_append, List.nodup_append, List.nodup_append]
    refine ⟨⟨hnd, ?_, ?_⟩, ?_, ?_⟩
    · match acc, hacc with
      | [], _ => simp
      | [_], _ => simp
    · intro a ha1 ha2
      obtain ⟨e1, he1, rfl⟩ := List.mem_map.mp ha1
      obtain ⟨e2, he2, h2⟩ := List.mem_map.mp ha2
      have := hold e1 he1
      have := (haccb e2 he2).1
      omega
    · match rw, hrw with
      | [], _ => simp
      | [_], _ => simp
    · intro a ha1 ha2
      obtain ⟨e2, he2, h2⟩ := List.mem_map.mp ha2
      obtain ⟨h3, hc, hclo⟩ := hrwc e2 he2
      rcases List.mem_append.mp ha1 with h | h
      · exact hc (by rw [← h3, h2]; exact h)
      · obtain ⟨e1, he1, h1⟩ := List.mem_map.mp h
        have := (haccb e1 he1).1
        omega
  · intro e he
    rcases List.mem_append.mp he with h | h
    · rcases List.mem_append.mp h with h | h
      · have := hold e h
        omega
      · exact (haccb e h).2
    · have := hrwc e h
      omega

theorem reachable_inv (s : State) (hr : Reachable s) : InFlightInv s := by
  induction hr with
  | idle s h => simp [InFlightInv, h]
  | start env s s' _ h ih =>
    obtain ⟨hnd, hb⟩ := ih
    obtain ⟨-, -, -, -, -, -, a7, a8⟩ := post_accept_effect env s s' h
    rcases a8 with a8 | ⟨o, c, hc1, hc2, a8⟩
    · refine ⟨by rw [a8]; exact hnd, ?_⟩
      intro e he
      rw [a8] at he
      have := hb e he
      omega
    · have := inv_extend s.inflight [{ op := o, conn := c, kind := OperationType.IO_ACCEPT }] []
        s.next_addr s'.next_addr 0 hnd hb (Nat.le_of_lt a7) (by simp) (by simp)
        (by simp [hc1, hc2]) (by simp)
      unfold InFlightInv
      rw [a8]
      simpa using this
  | dispatch env s s' e data n _ he h ih =>
    obtain ⟨hnd, hb⟩ := ih
    obtain ⟨c1, c2, -⟩ := complete_fields e data s
    obtain ⟨-, -, -, -, -, -, a7, acc, rw, a8, hacc, hrw, haccb, hrwc⟩ :=
      process_io_effect env _ _ n _ s' h
    rw [c1] at a8
    rw [c2] at a7 haccb
    have hsub : (s.inflight.erase e).Sublist s.inflight := List.erase_sublist e s.inflight
    have := inv_extend (s.inflight.erase e) acc rw s.next_addr s'.next_addr e.conn
      (hnd.sublist (hsub.map InFlight.conn))
      (fun x hx => hb x (hsub.subset hx))
      a7 hacc hrw haccb
      (fun x hx => ⟨Option.some.inj (hrwc x hx).1, conn_not_mem_erase s.inflight e hnd he,
        hb e he⟩)
    unfold InFlightInv
    rw [a8]
    exact this

theorem inv_count_le_one (l : List InFlight) (c : Nat) (hnd : (l.map InFlight.conn).Nodup) :
    (l.filter (fun e => decide (e.conn = c ∧ e.kind ≠ OperationType.IO_ACCEPT))).length ≤ 1 := by
  induction l with
  | nil => simp
  | cons x t ih =>
    rw [List.map_cons, List.nodup_cons] at hnd
    by_cases hx : x.conn = c ∧ x.kind ≠ OperationType.IO_ACCEPT
    · rw [List.filter_cons_of_pos (by simpa using hx)]
      have hnil : t.filter (fun e => decide (e.conn = c ∧ e.kind ≠ OperationType.IO_ACCEPT)) = [] := by
        rw [List.filter_eq_nil_iff]
        intro y hy hp
        have hyc : y.conn = c := (of_decide_eq_true hp).1
        exact hnd.1 (by rw [hx.1, ← hyc]; exact List.mem_map_of_mem InFlight.conn hy)
      rw [hnil]
      simp
    · rw [List.filter_cons_of_neg (by simpa using hx)]
      exact ih hnd.2

/-! ## Dispatch of a completed Read -/

theorem derefIo_iff (s : State) (a : Nat) (d : PER_IO_DATA) :
    derefIo s (some a) = some d ↔ heapLookup s a = some (HeapObj.io d) := by
  unfold derefIo
  simp only []
  split
  · rename_i d' h
    rw [h]
    simp
  · rename_i h
    constructor
    · intro h'; contradiction
    · intro h'; exact absurd h' (h d)

theorem derefHandle_iff (s : State) (a : Nat) (d : PER_HANDLE_DATA) :
    derefHandle s (some a) = some d ↔ heapLookup s a = some (HeapObj.handle d) := by
  unfold derefHandle
  simp only []
  split
  · rename_i d' h
    rw [h]
    simp
  · rename_i h
    constructor
    · intro h'; contradiction
    · intro h'; exact absurd h' (h d)

@[simp] theorem closesocket_open_sockets (k : Option Nat) (s : State) :
    (closesocket k s).open_sockets =
      match k with
      | none => s.open_sockets
      | some h => s.open_sockets.erase h := by
  cases k <;> rfl

/-- The lookups that stay as they are when a Write is posted: the Write
record and its payload get fresh addresses. -/
theorem post_write_sent (env : Env) (s : State) (conn op n : Nat) (io : PER_IO_DATA)
    (h : PER_HANDLE_DATA)
    (hio : heapLookup s op = some (HeapObj.io io))
    (hc : heapLookup s conn = some (HeapObj.handle h))
    (halloc : env.HeapAlloc_payload = true) :
    ∃ s', post_write env (some conn) (BufPtr.inline_buffer op) n s = some s' ∧
      s'.trace = s.trace ++ [Event.WSASend h.socket (freshAddr s) (io.buffer.val.take n)] ∧
      heapLookup s' op = some (HeapObj.io io) ∧
      heapLookup s' conn = some (HeapObj.handle h) ∧
      s'.open_sockets = s.open_sockets := by
  have hop_lt := heapLookup_lt_fresh s op _ hio
  have hconn_lt := heapLookup_lt_fresh s conn _ hc
  have hop_ne : op ≠ freshAddr s := by omega
  have hconn_ne : conn ≠ freshAddr s := by omega
  have hop_ne2 : op ≠ freshAddr s + 1 := by omega
  have hconn_ne2 : conn ≠ freshAddr s + 1 := by omega
  -- after the Write record is allocated and tagged
  have e1 : ∀ o1 o2, heapLookup (heapStore (freshAddr s) o2 (HeapAlloc o1 s).2) op
      = some (HeapObj.io io) := by
    intro o1 o2
    rw [heapLookup_store, if_neg hop_ne]
    exact heapLookup_alloc_old _ _ _ _ hio
  have e2 : ∀ o1 o2, heapLookup (heapStore (freshAddr s) o2 (HeapAlloc o1 s).2) conn
      = some (HeapObj.handle h) := by
    intro o1 o2
    rw [heapLookup_store, if_neg hconn_ne]
    exact heapLookup_alloc_old _ _ _ _ hc
  -- after the payload is allocated and the descriptor is stored
  have e3 : ∀ o1 o2 o3 o4, heapLookup (heapStore (freshAddr s) o4
      (HeapAlloc o3 (heapStore (freshAddr s) o2 (HeapAlloc o1 s).2)).2) op
      = some (HeapObj.io io) := by
    intro o1 o2 o3 o4
    rw [heapLookup_store, if_neg hop_ne]
    exact heapLookup_alloc_old _ _ _ _ (e1 o1 o2)
  have e4 : ∀ o1 o2 o3 o4, heapLookup (heapStore (freshAddr s) o4
      (HeapAlloc o3 (heapStore (freshAddr s) o2 (HeapAlloc o1 s).2)).2) conn
      = some (HeapObj.handle h) := by
    intro o1 o2 o3 o4
    rw [heapLookup_store, if_neg hconn_ne]
    exact heapLookup_alloc_old _ _ _ _ (e2 o1 o2)
  unfold post_write
  simp only [halloc, if_true, HeapAlloc_fields, readBytes, (derefIo_iff _ _ _).mpr (e1 _ _),
    Option.map_some', (derefHandle_iff _ _ _).mpr (e4 _ _ _ _), freshAddr_store, freshAddr_alloc]
  split
  · refine ⟨_, rfl, ?_, ?_, ?_, ?_⟩
    · simp only [HeapFree_fields, emit_fields, heapStore_fields, HeapAlloc_fields]
    · rw [heapLookup_free, if_neg hop_ne, heapLookup_free, if_neg hop_ne2, heapLookup_emit]
      exact e3 _ _ _ _
    · rw [heapLookup_free, if_neg hconn_ne, heapLookup_free, if_neg hconn_ne2, heapLookup_emit]
      exact e4 _ _ _ _
    · simp only [HeapFree_fields, emit_fields, heapStore_fields, HeapAlloc_fields]
  · refine ⟨_, rfl, ?_, ?_, ?_, ?_⟩
    · simp only [submit_fields, emit_fields, heapStore_fields, HeapAlloc_fields]
    · rw [heapLookup_submit, heapLookup_emit]
      exact e3 _ _ _ _
    · rw [heapLookup_submit, heapLookup_emit]
      exact e4 _ _ _ _
    · simp only [submit_fields, emit_fields, heapStore_fields, HeapAlloc_fields]

/-! ## The flag and the workers -/

theorem WorkerThread_flag (l : List (Env × Dequeue)) (s s' : State)
    (h : WorkerThread l s = some s') : s'.g_shutdown_flag = s.g_shutdown_flag := by
  induction l generalizing s with
  | nil =>
    simp only [WorkerThread] at h
    injection h with h
    rw [h]
  | cons x t ih =>
    obtain ⟨env, d⟩ := x
    simp only [WorkerThread] at h
    split at h
    · split at h
      · injection h with h
        rw [h]
      · split at h
        · contradiction
        · rename_i s1 h1
          rw [ih s1 h, (process_io_effect env _ _ _ s s1 h1).1]
    · injection h with h
      rw [h]

/-! ## Initialisation and shutdown -/

theorem postSentinels_eq (k : Nat) (s : State) :
    postSentinels k s =
      { s with trace := (s.trace ++
          List.replicate k (Event.PostQueuedCompletionStatus s.g_completion_port 0 none none)) } := by
  induction k generalizing s with
  | zero => simp [postSentinels]
  | succ k ih =>
    rw [postSentinels, ih]
    simp [emit, List.replicate_succ]

theorem createWorkers_eq (env : Env) (k i : Nat) (s : State) :
    createWorkers env i k s =
      { s with
        trace := (s.trace ++ (List.range' i k).map Event.CreateThread)
        g_worker_threads := (s.g_worker_threads ++ (List.range' i k).map env.CreateThread) } := by
  induction k generalizing i s with
  | zero => simp [createWorkers]
  | succ k ih =>
    rw [createWorkers, ih]
    simp [emit, List.range'_succ]

theorem cleanup_flag (s : State) : (cleanup s).g_shutdown_flag = s.g_shutdown_flag := by
  cases h1 : s.g_listen_socket <;> cases h2 : s.g_completion_port <;>
    simp [cleanup, WSACleanup, closesocket, emit, h1, h2]

theorem initialize_server_flag (env : Env) (addr : String) (port : Nat)
    (callback_func : Option Nat) (s : State) :
    (initialize_server env addr port callback_func s).2.g_shutdown_flag = s.g_shutdown_flag := by
  cases callback_func with
  | none => rfl
  | some f =>
    by_cases h1 : env.WSAStartup = 0
    · cases h2 : env.CreateIoCompletionPort_new with
      | none => simp [initialize_server, h1, h2, WSACleanup, emit]
      | some p =>
        cases h3 : env.WSASocket with
        | none => simp [initialize_server, h1, h2, h3, WSASocket, cleanup_flag, emit]
        | some l =>
          by_cases h4 : env.WSAIoctl = SOCKET_ERROR
          · simp [initialize_server, h1, h2, h3, WSASocket, h4, cleanup_flag, emit]
          · by_cases h5 : env.bind = SOCKET_ERROR
            · simp [initialize_server, h1, h2, h3, WSASocket, h4, h5, cleanup_flag, emit]
            · by_cases h6 : env.listen = SOCKET_ERROR
              · simp [initialize_server, h1, h2, h3, WSASocket, h4, h5, h6, cleanup_flag, emit]
              · simp [initialize_server, h1, h2, h3, WSASocket, h4, h5, h6, createWorkers_eq,
                  emit]
    · simp [initialize_server, h1, emit]

/-- What a successful `initialize_server` leaves. -/
theorem initialize_server_success (env : Env) (addr : String) (port : Nat)
    (callback_func : Option Nat) (s : State)
    (hok : (initialize_server env addr port callback_func s).1 = 0) :
    ∃ f p l, callback_func = some f ∧ env.CreateIoCompletionPort_new = some p ∧
      env.WSASocket = some l ∧
      (initialize_server env addr port callback_func s).2.g_callback_func = some f ∧
      (initialize_server env addr port callback_func s).2.g_completion_port = some p ∧
      (initialize_server env addr port callback_func s).2.g_listen_socket = some l ∧
      (initialize_server env addr port callback_func s).2.lpfnAcceptEx = some env.AcceptEx_ptr ∧
      (initialize_server env addr port callback_func s).2.g_num_threads =
        min ((env.dwNumberOfProcessors % DWORD_MOD * 2) % DWORD_MOD) MAX_THREADS ∧
      (initialize_server env addr port callback_func s).2.g_worker_threads =
        (List.range' 0 (initialize_server env addr port callback_func s).2.g_num_threads).map
          env.CreateThread ∧
      (initialize_server env addr port callback_func s).2.inflight = s.inflight := by
  cases callback_func with
  | none => simp [initialize_server] at hok
  | some f =>
    by_cases h1 : env.WSAStartup = 0
    · cases h2 : env.CreateIoCompletionPort_new with
      | none => simp [initialize_server, h1, h2] at hok
      | some p =>
        cases h3 : env.WSASocket with
        | none => simp [initialize_server, h1, h2, h3, WSASocket] at hok
        | some l =>
          by_cases h4 : env.WSAIoctl = SOCKET_ERROR
          · simp [initialize_server, h1, h2, h3, WSASocket, h4] at hok
          · by_cases h5 : env.bind = SOCKET_ERROR
            · simp [initialize_server, h1, h2, h3, WSASocket, h4, h5] at hok
            · by_cases h6 : env.listen = SOCKET_ERROR
              · simp [initialize_server, h1, h2, h3, WSASocket, h4, h5, h6] at hok
              · refine ⟨f, p, l, rfl, rfl, rfl, ?_⟩
                simp only [initialize_server, h1, h2, h3, WSASocket, h4, h5, h6,
                  createWorkers_eq, emit]
                simp
                rw [Nat.min_def]
                split <;> split <;> omega
    · simp [initialize_server, h1] at hok

/-! ## The claims of the specification -/

/-- C1: for every combination of outcomes, `initialize_server` returns 1 when the
callback is null, and then leaves the state as it was (no call is made, no
event is appended to the trace); otherwise it returns the code of the first
failing step in the order `WSAStartup` (2), completion-port creation (3),
listening-socket creation (4), `AcceptEx` resolution by `WSAIoctl` (5), `bind`
(6), `listen` (7); and it returns 0 exactly when the callback is not null and
the six steps all succeed. -/
theorem initialize_server_return_code (env : Env) (addr : String) (port : Nat)
    (callback_func : Option Nat) (s : State) :
    ((initialize_server env addr port callback_func s).1 =
      if callback_func = none then 1
      else if env.WSAStartup ≠ 0 then 2
      else if env.CreateIoCompletionPort_new = none then 3
      else if env.WSASocket = none then 4
      else if env.WSAIoctl = SOCKET_ERROR then 5
      else if env.bind = SOCKET_ERROR then 6
      else if env.listen = SOCKET_ERROR then 7
      else 0) ∧
    (callback_func = none → (initialize_server env addr port callback_func s).2 = s) ∧
    ((initialize_server env addr port callback_func s).1 = 0 ↔
      callback_func ≠ none ∧ env.WSAStartup = 0 ∧ env.CreateIoCompletionPort_new ≠ none ∧
      env.WSASocket ≠ none ∧ env.WSAIoctl ≠ SOCKET_ERROR ∧ env.bind ≠ SOCKET_ERROR ∧
      env.listen ≠ SOCKET_ERROR) := by
  cases callback_func with
  | none => simp [initialize_server]
  | some f =>
    by_cases h1 : env.WSAStartup = 0
    · cases h2 : env.CreateIoCompletionPort_new with
      | none => simp [initialize_server, h1, h2]
      | some p =>
        cases h3 : env.WSASocket with
        | none => simp [initialize_server, h1, h2, h3, WSASocket]
        | some l =>
          by_cases h4 : env.WSAIoctl = SOCKET_ERROR
          · simp [initialize_server, h1, h2, h3, WSASocket, h4]
          · by_cases h5 : env.bind = SOCKET_ERROR
            · simp [initialize_server, h1, h2, h3, WSASocket, h4, h5]
            · by_cases h6 : env.listen = SOCKET_ERROR
              · simp [initialize_server, h1, h2, h3, WSASocket, h4, h5, h6]
              · simp [initialize_server, h1, h2, h3, WSASocket, h4, h5, h6]
    · simp [initialize_server, h1]

/-- C2 (as stated, refuted): when `WSAStartup` fails, `initialize_server`,
called in the never-initialised state, returns 2 and the stored callback is not
null. -/
theorem initialize_server_failure_keeps_callback :
    (initialize_server { envAllOk with WSAStartup := 10091 } "0.0.0.0" 8080 (some 1)
        State.initial).1 = 2 ∧
      (initialize_server { envAllOk with WSAStartup := 10091 } "0.0.0.0" 8080 (some 1)
        State.initial).2.g_callback_func ≠ none := by
  decide

/-- C2 (amended): from the never-initialised state, a call of
`initialize_server` that returns a non-zero code leaves the completion-port
handle null, the listening socket invalid, the worker count 0 and no worker
handle stored, and has released what the steps before the failing one acquired
(no open port, no open socket, no Winsock reference); `g_callback_func` holds the
pointer that was passed in, which is null only for code 1. -/
theorem initialize_server_failure_state (env : Env) (addr : String) (port : Nat)
    (callback_func : Option Nat)
    (hfail : (initialize_server env addr port callback_func State.initial).1 ≠ 0) :
    (initialize_server env addr port callback_func State.initial).2.g_completion_port = none ∧
    (initialize_server env addr port callback_func State.initial).2.g_listen_socket = none ∧
    (initialize_server env addr port callback_func State.initial).2.g_num_threads = 0 ∧
    (initialize_server env addr port callback_func State.initial).2.g_worker_threads = [] ∧
    (initialize_server env addr port callback_func State.initial).2.g_callback_func
      = callback_func ∧
    (initialize_server env addr port callback_func State.initial).2.wsa_refs = 0 ∧
    (initialize_server env addr port callback_func State.initial).2.open_ports = [] ∧
    (initialize_server env addr port callback_func State.initial).2.open_sockets = [] := by
  cases callback_func with
  | none => simp [initialize_server, State.initial]
  | some f =>
    by_cases h1 : env.WSAStartup = 0
    · cases h2 : env.CreateIoCompletionPort_new with
      | none => simp [initialize_server, h1, h2, State.initial, WSACleanup, emit]
      | some p =>
        cases h3 : env.WSASocket with
        | none =>
          simp [initialize_server, h1, h2, h3, WSASocket, State.initial, WSACleanup, emit,
            cleanup]
        | some l =>
          by_cases h4 : env.WSAIoctl = SOCKET_ERROR
          · simp [initialize_server, h1, h2, h3, WSASocket, h4, State.initial, WSACleanup, emit,
              cleanup, closesocket]
          · by_cases h5 : env.bind = SOCKET_ERROR
            · simp [initialize_server, h1, h2, h3, WSASocket, h4, h5, State.initial, WSACleanup,
                emit, cleanup, closesocket]
            · by_cases h6 : env.listen = SOCKET_ERROR
              · simp [initialize_server, h1, h2, h3, WSASocket, h4, h5, h6, State.initial,
                  WSACleanup, emit, cleanup, closesocket]
              · simp [initialize_server, h1, h2, h3, WSASocket, h4, h5, h6] at hfail
    · simp [initialize_server, h1, State.initial, emit]

/-- The amended C2 at a run in which `bind` fails. -/
theorem initialize_server_failure_state_witness :
    (initialize_server { envAllOk with bind := -1 } "0.0.0.0" 8080 (some 1) State.initial).1 ≠ 0 ∧
    (initialize_server { envAllOk with bind := -1 } "0.0.0.0" 8080 (some 1)
      State.initial).2.g_completion_port = none ∧
    (initialize_server { envAllOk with bind := -1 } "0.0.0.0" 8080 (some 1)
      State.initial).2.open_sockets = [] :=
  have h := initialize_server_failure_state { envAllOk with bind := -1 } "0.0.0.0" 8080 (some 1)
    (by decide)
  ⟨by decide, h.1, h.2.2.2.2.2.2.2⟩

/-- C3: for a completed Read of `n` bytes, `1 ≤ n ≤ 4096`, on a live
connection record, with a host callback `f` installed, `process_io` returns, and
what it appends to the trace is exactly one call of the callback with (the
connection record, the Read's inline buffer, `n`) followed by exactly one
`WSASend` on the connection's socket; the payload sent has length `n` and is the
first `n` bytes of the inline buffer as the callback left it (`after`, which is
what the Read record holds on return).  Replacing the callback's return value
by any other value `r` gives the same resulting state, hence the same Write with
the same payload.  The payload allocation is assumed to succeed. -/
theorem process_io_read_echo (env : Env) (s : State) (conn op n f : Nat) (rd : PER_IO_DATA)
    (h : PER_HANDLE_DATA)
    (hop : derefIo s (some op) = some rd)
    (htag : rd.operation_type = OperationType.IO_READ)
    (hconn : derefHandle s (some conn) = some h)
    (hcb : s.g_callback_func = some f)
    (hn1 : 1 ≤ n) (hn2 : n ≤ BUFFER_SIZE)
    (halloc : env.HeapAlloc_payload = true) :
    ∃ s' wr payload after,
      process_io env (some conn) (some op) n s = some s' ∧
      after = rd.buffer.write (env.host f (some conn) rd.buffer.val n).2 ∧
      derefIo s' (some op) = some { rd with buffer := after } ∧
      payload = after.val.take n ∧
      payload.length = n ∧
      s'.trace = s.trace ++
        [Event.callback f (some conn) (BufPtr.inline_buffer op) n,
          Event.WSASend h.socket wr payload] ∧
      ∀ r : Int,
        process_io { env with host := fun a b c d => (r, (env.host a b c d).2) }
          (some conn) (some op) n s = some s' := by
  have hop' := (derefIo_iff s op rd).mp hop
  have hconn' := (derefHandle_iff s conn h).mp hconn
  have hne : conn ≠ op := by
    intro hc
    rw [hc, hop'] at hconn'
    cases hconn'
  have hn0 : ¬ n = 0 := by omega
  -- the state after the callback
  let after := rd.buffer.write (env.host f (some conn) rd.buffer.val n).2
  let s1 := invoke_callback env (some conn) op rd n s
  have hs1 : s1 = heapStore op (HeapObj.io { rd with buffer := after })
      (emit (Event.callback f (some conn) (BufPtr.inline_buffer op) n) s) := by
    show invoke_callback env (some conn) op rd n s = _
    unfold invoke_callback
    simp only [hcb]
  have h1op : heapLookup s1 op = some (HeapObj.io { rd with buffer := after }) := by
    rw [hs1, heapLookup_store]
    simp [hop']
  have h1conn : heapLookup s1 conn = some (HeapObj.handle h) := by
    rw [hs1, heapLookup_store]
    simp [hne, hconn']
  obtain ⟨s', hs', htr, hop2, -, -⟩ := post_write_sent env s1 conn op n _ h h1op h1conn halloc
  have hrun : process_io env (some conn) (some op) n s = some s' := by
    unfold process_io
    simp only [hop, htag, hn0, if_false]
    exact hs'
  refine ⟨s', freshAddr s1, after.val.take n, after, hrun, rfl, (derefIo_iff _ _ _).mpr hop2, rfl,
    ?_, ?_, ?_⟩
  · rw [List.length_take, after.property]
    omega
  · rw [htr, hs1]
    simp
  · intro r
    rw [← hrun]
    rfl

/-- C3 at the concrete run: the Read of two bytes on connection 1. -/
theorem process_io_read_echo_witness :
    ∃ s' wr payload after,
      process_io envAllOk (some 1) (some 7) 2 runReadDone = some s' ∧
      after = runReadRecord.buffer.write
        (envAllOk.host 1 (some 1) runReadRecord.buffer.val 2).2 ∧
      derefIo s' (some 7) = some { runReadRecord with buffer := after } ∧
      payload = after.val.take 2 ∧
      payload.length = 2 ∧
      s'.trace = runReadDone.trace ++
        [Event.callback 1 (some 1) (BufPtr.inline_buffer 7) 2,
          Event.WSASend (some 201) wr payload] ∧
      ∀ r : Int,
        process_io { envAllOk with host := fun a b c d => (r, (envAllOk.host a b c d).2) }
          (some 1) (some 7) 2 runReadDone = some s' :=
  process_io_read_echo envAllOk runReadDone 1 7 2 1 runReadRecord { socket := some 201 }
    rfl rfl rfl rfl (by decide) (by decide) rfl

/-- C4: for a completed Read that reports 0 bytes on a live connection record,
`process_io` returns; the only event it appends is `closesocket` on the
connection's socket (so no callback is invoked and nothing is submitted), the set
of operations in flight is unchanged, the connection record and the Read record
are no longer allocated, every other block is untouched, and the socket is no
longer open. -/
theorem process_io_read_zero (env : Env) (s : State) (conn op : Nat) (rd : PER_IO_DATA)
    (h : PER_HANDLE_DATA)
    (hop : derefIo s (some op) = some rd)
    (htag : rd.operation_type = OperationType.IO_READ)
    (hconn : derefHandle s (some conn) = some h) :
    ∃ s', process_io env (some conn) (some op) 0 s = some s' ∧
      s'.trace = s.trace ++ [Event.closesocket h.socket] ∧
      s'.inflight = s.inflight ∧
      heapLookup s' conn = none ∧
      heapLookup s' op = none ∧
      (∀ a, a ≠ conn → a ≠ op → heapLookup s' a = heapLookup s a) ∧
      (∀ k, h.socket = some k → s'.open_sockets = s.open_sockets.erase k) := by
  refine ⟨HeapFree (some op) (HeapFree (some conn) (closesocket h.socket s)), ?_, ?_, ?_, ?_, ?_,
    ?_, ?_⟩
  · unfold process_io
    simp only [hop, htag, hconn, if_true]
  · simp
  · simp
  · by_cases hc : conn = op
    · simp [heapLookup_free, hc]
    · simp [heapLookup_free, hc]
  · simp [heapLookup_free]
  · intro a h1 h2
    simp [heapLookup_free, h1, h2]
  · intro k hk
    simp [hk]

/-- C4 at the concrete run: the peer of connection 1 closed. -/
theorem process_io_read_zero_witness :
    ∃ s', process_io envAllOk (some 1) (some 7) 0 runPeerClosed = some s' ∧
      s'.trace = runPeerClosed.trace ++ [Event.closesocket (some 201)] ∧
      s'.inflight = runPeerClosed.inflight ∧
      heapLookup s' 1 = none ∧
      heapLookup s' 7 = none ∧
      (∀ a, a ≠ 1 → a ≠ 7 → heapLookup s' a = heapLookup runPeerClosed a) ∧
      (∀ k, some 201 = some k → s'.open_sockets = runPeerClosed.open_sockets.erase k) :=
  process_io_read_zero envAllOk runPeerClosed 1 7 runClosedRecord { socket := some 201 }
    rfl rfl rfl

/-- C5: after a successful `initialize_server`, with `n` the worker count it
established (`min (2 * processors) 64`, in `DWORD` arithmetic), `shutdown_server`
performs exactly, in this order: the store of 1 to `g_shutdown_flag`; `n` calls
`PostQueuedCompletionStatus(port, 0, 0, NULL)`; `WaitForMultipleObjects` on the
`n` thread handles `initialize_server` stored; `closesocket` on the listening socket; `CloseHandle` on the
completion port; `WSACleanup`.  It leaves the listening socket invalid and the
completion port null.  The flag is 1 after `shutdown_server` from any state, and
no other operation (`initialize_server`, `start_server`, `process_io`,
`WorkerThread`, `cleanup`) changes it, so once set it is never reset. -/
theorem shutdown_server_protocol (env : Env) (addr : String) (port : Nat)
    (callback_func : Option Nat) (s0 : State)
    (hok : (initialize_server env addr port callback_func s0).1 = 0) :
    (∃ l p,
      (initialize_server env addr port callback_func s0).2.g_listen_socket = some l ∧
      (initialize_server env addr port callback_func s0).2.g_completion_port = some p ∧
      (initialize_server env addr port callback_func s0).2.g_num_threads =
        min ((env.dwNumberOfProcessors % DWORD_MOD * 2) % DWORD_MOD) MAX_THREADS ∧
      (shutdown_server (initialize_server env addr port callback_func s0).2).trace =
        (initialize_server env addr port callback_func s0).2.trace ++
          [Event.store_shutdown_flag 1] ++
          List.replicate (initialize_server env addr port callback_func s0).2.g_num_threads
            (Event.PostQueuedCompletionStatus (some p) 0 none none) ++
          [Event.WaitForMultipleObjects
              (initialize_server env addr port callback_func s0).2.g_num_threads
              ((List.range' 0
                (initialize_server env addr port callback_func s0).2.g_num_threads).map
                env.CreateThread),
            Event.closesocket (some l), Event.CloseHandle p, Event.WSACleanup] ∧
      (shutdown_server (initialize_server env addr port callback_func s0).2).g_listen_socket
        = none ∧
      (shutdown_server (initialize_server env addr port callback_func s0).2).g_completion_port
        = none) ∧
    (∀ t : State, (shutdown_server t).g_shutdown_flag = 1) ∧
    (∀ (e : Env) (a : String) (p : Nat) (cb : Option Nat) (t : State),
      (initialize_server e a p cb t).2.g_shutdown_flag = t.g_shutdown_flag) ∧
    (∀ (e : Env) (t t' : State), start_server e t = some t' →
      t'.g_shutdown_flag = t.g_shutdown_flag) ∧
    (∀ (e : Env) (p q : Option Nat) (n : Nat) (t t' : State),
      process_io e p q n t = some t' → t'.g_shutdown_flag = t.g_shutdown_flag) ∧
    (∀ (l : List (Env × Dequeue)) (t t' : State), WorkerThread l t = some t' →
      t'.g_shutdown_flag = t.g_shutdown_flag) ∧
    (∀ t : State, (cleanup t).g_shutdown_flag = t.g_shutdown_flag) := by
  obtain ⟨f, p, l, -, -, -, -, hp, hl, -, hn, hw, -⟩ :=
    initialize_server_success env addr port callback_func s0 hok
  refine ⟨⟨l, p, hl, hp, hn, ?_⟩, ?_, initialize_server_flag, ?_, ?_, WorkerThread_flag,
    cleanup_flag⟩
  · generalize (initialize_server env addr port callback_func s0).2 = s at hp hl hn hw
    simp [shutdown_server, postSentinels_eq, cleanup, emit, closesocket, WSACleanup, hp, hl, hw]
  · intro t
    simp [shutdown_server, postSentinels_eq, cleanup_flag, emit]
  · intro e t t' h
    exact (post_accept_effect e t t' h).1
  · intro e p q n t t' h
    exact (process_io_effect e p q n t t' h).1

/-- C5 at the concrete run on a two-processor machine (four workers). -/
theorem shutdown_server_protocol_witness :
    (initialize_server envAllOk "0.0.0.0" 8080 (some 1) State.initial).1 = 0 ∧
    ∃ l p,
      runInit.g_listen_socket = some l ∧
      runInit.g_completion_port = some p ∧
      runInit.g_num_threads =
        min ((envAllOk.dwNumberOfProcessors % DWORD_MOD * 2) % DWORD_MOD) MAX_THREADS ∧
      (shutdown_server runInit).trace =
        runInit.trace ++ [Event.store_shutdown_flag 1] ++
          List.replicate runInit.g_num_threads
            (Event.PostQueuedCompletionStatus (some p) 0 none none) ++
          [Event.WaitForMultipleObjects runInit.g_num_threads
              ((List.range' 0 runInit.g_num_threads).map envAllOk.CreateThread),
            Event.closesocket (some l), Event.CloseHandle p, Event.WSACleanup] ∧
      (shutdown_server runInit).g_listen_socket = none ∧
      (shutdown_server runInit).g_completion_port = none :=
  ⟨by decide,
    (shutdown_server_protocol envAllOk "0.0.0.0" 8080 (some 1) State.initial (by decide)).1⟩

/-- C6 (code defect): a completion that `GetQueuedCompletionStatus` reports as a
success and that carries no operation record, which is what the sentinel posted
by `shutdown_server` is, does not make the worker leave its loop: the loop body
goes on to call `process_io` with the null record, and that call dereferences
it. -/
theorem WorkerThread_dispatches_sentinel :
    WorkerThread_body
        { ret := 1, bytes_transferred := 0, per_handle_data := none, per_io_data := none }
      = WorkerAction.dispatch none none 0 ∧
    process_io envAllOk none none 0 runInit = none ∧
    runInit.g_shutdown_flag = 0 ∧
    WorkerThread
        [(envAllOk,
          { ret := 1, bytes_transferred := 0, per_handle_data := none, per_io_data := none })]
        runInit = none := by
  decide

/-- C7 (code defect): after a successful `initialize_server` and `start_server`
the listening socket (handle 200) has been bound and put in listening state, and
the first `AcceptEx` is submitted on it, but no call has associated it with the
completion port: the trace holds no `CreateIoCompletionPort` call on a socket. -/
theorem start_server_listen_socket_not_associated :
    (initialize_server envAllOk "0.0.0.0" 8080 (some 1) State.initial).1 = 0 ∧
    runInit.g_listen_socket = some 200 ∧
    (start_server { envAllOk with WSASocket := some 201 } runInit).map State.trace =
      some [Event.WSAStartup, Event.CreateIoCompletionPort_new, Event.WSASocket,
        Event.WSAIoctl (some 200), Event.bind (some 200) "0.0.0.0" 8080,
        Event.listen (some 200), Event.CreateThread 0, Event.CreateThread 1,
        Event.CreateThread 2, Event.CreateThread 3, Event.WSASocket,
        Event.AcceptEx (some 200) (some 201) 2] := by
  decide

/-- C9 (code defect): when `WSASend` fails with an error other than
`WSA_IO_PENDING` (here 10054), `post_write` frees the Write record and its
payload and returns: it makes no `closesocket` call, the connection's socket
(201) stays open and the connection record (address 1) stays allocated. -/
theorem post_write_failure_keeps_connection :
    (post_write { envAllOk with WSASend := { ret := -1, last_error := 10054 } } (some 1)
        (BufPtr.inline_buffer 7) 2 runReadDone).map
      (fun s => (s.trace.drop runReadDone.trace.length, derefHandle s (some 1),
        s.open_sockets, s.heap.map Prod.fst, s.inflight.map InFlight.conn))
      = some ([Event.WSASend (some 201) 8 [104, 105]], some { socket := some 201 },
          [202, 201, 200], [1, 2, 3, 4, 5, 6, 7], [4]) := by
  decide

/-- C10 (code defect): `process_io` leaves completed records allocated.  After the
dispatch of the first Accept its record (address 2) and its address scratch block
(3) are still live; after the dispatch of a Read of two bytes its record (7) is
still live; after the dispatch of the Write the record (8) is freed and its
payload block (9) is still live. -/
theorem process_io_leaves_records_allocated :
    runAccepted.heap.map Prod.fst = [1, 2, 3, 4, 5, 6, 7] ∧
    (derefIo runAccepted (some 2)).map PER_IO_DATA.operation_type
      = some OperationType.IO_ACCEPT ∧
    runEchoed.heap.map Prod.fst = [1, 2, 3, 4, 5, 6, 7, 8, 9] ∧
    (derefIo runEchoed (some 7)).map PER_IO_DATA.operation_type = some OperationType.IO_READ ∧
    runWritten.heap.map Prod.fst = [1, 2, 3, 4, 5, 6, 7, 9, 10] ∧
    heapLookup runWritten 8 = none ∧
    heapLookup runWritten 9 = some (HeapObj.bytes [104, 105]) := by
  decide

/-- C8: in every state reachable by `start_server` and by dispatching, with
`process_io`, the completion of any operation in flight (Accept, Read of 0 bytes,
Read of `n > 0` bytes, Write, in any order, with any outcome of the calls the
dispatch makes), each connection record has at most one Read or Write in
flight. -/
theorem single_outstanding_io (s : State) (hr : Reachable s) (conn : Nat) :
    inFlightRW s conn ≤ 1 :=
  inv_count_le_one s.inflight conn (reachable_inv s hr).1

/-- C8 at the concrete run, after an Accept, a Read and a Write were
dispatched. -/
theorem single_outstanding_io_witness :
    Reachable runWritten ∧ inFlightRW runWritten 1 ≤ 1 :=
  have h0 : Reachable runInit := Reachable.idle runInit rfl
  have h1 : Reachable runStarted :=
    Reachable.start { envAllOk with WSASocket := some 201 } runInit runStarted h0 rfl
  have h2 : Reachable runAccepted :=
    Reachable.dispatch { envAllOk with WSASocket := some 202 } runStarted runAccepted
      { op := 2, conn := 1, kind := OperationType.IO_ACCEPT } [] 0 h1 (by decide) rfl
  have h3 : Reachable runEchoed :=
    Reachable.dispatch envAllOk runAccepted runEchoed
      { op := 7, conn := 1, kind := OperationType.IO_READ } [104, 105] 2 h2 (by decide) rfl
  have h4 : Reachable runWritten :=
    Reachable.dispatch envAllOk runEchoed runWritten
      { op := 8, conn := 1, kind := OperationType.IO_WRITE } [] 2 h3 (by decide) rfl
  ⟨h4, single_outstanding_io runWritten h4 1⟩

end NanoNet
